import Mathlib

/-!
Shallow embedding of the core of the `ort` Rust binding (Value/Tensor
ownership, tensor-construction data sources, status/error bridge, and
entry-point resolution), together with theorems checking the
natural-language specification against the code.

Sources embedded:
- `src/value/impl_tensor/create.rs` (tensor constructors, `ToDimensions`,
  the `TensorArrayData` family);
- `src/value/impl_tensor/mod.rs` (`can_downcast`, indexing,
  `calculate_tensor_size`);
- `src/lib.rs` (`dylib_path`, `lib_handle`, `api` version gate);
- `backends/candle/error.rs` (the callback-ABI error round trip).

Parts of the repository that the claims depend on but whose source is not
available (notably `src/value/mod.rs` with `ValueInner`'s destructor, the
extraction code in `impl_tensor/extract.rs`, and `src/memory.rs`) are
modelled from the specification; each such definition carries a doc
comment starting with `Modelled from the spec:`.
-/

namespace Ort

/-- Engine status codes (`ort_sys::OrtErrorCode`); the binding's `ErrorCode`
mirrors these. Only the variants the embedded code uses are listed. -/
inductive ErrorCode where
  | Ok
  | Fail
  | InvalidArgument
  | RuntimeException
deriving DecidableEq, Repr

/-- The binding's rich error object: a code plus a human-readable message
(`src/error.rs`, shape given by the spec data model: `{code, message}`). -/
structure OrtError where
  code : ErrorCode
  message : String
deriving DecidableEq, Repr

/-- The uniform fallible-result type of the binding (`ort::Result`). -/
abbrev OrtResult (α : Type) := Except OrtError α

/-- Embeds `calculate_tensor_size` from `src/value/impl_tensor/mod.rs`
(lines 256-265): multiplies the dimensions as machine-size integers,
returning 0 as soon as a negative dimension is seen. -/
def calculate_tensor_size_go (size : Nat) : List Int → Nat
  | [] => size
  | dim :: rest => if dim < 0 then 0 else calculate_tensor_size_go (size * dim.toNat) rest

/-- Entry point of `calculate_tensor_size` with the accumulator at 1. -/
def calculate_tensor_size (shape : List Int) : Nat :=
  calculate_tensor_size_go 1 shape

/-- The exact message `to_dimensions` produces for a dimension `< 1`
(create.rs line 418), with the offending index interpolated. -/
def invalidDimMsg (i : Nat) : String :=
  "Invalid dimension at " ++ toString i ++ "; all dimensions must be >= 1 when creating a tensor from raw data"

/-- The exact message `to_dimensions` produces on a size mismatch
(create.rs line 428), naming the shape, its product, and the supplied
element count. -/
def sizeMismatchMsg (v : List Int) (sum expected : Nat) : String :=
  "Cannot create a tensor from raw data; shape " ++ toString v ++ " (" ++ toString sum ++ ") is larger than the length of the data provided (" ++ toString expected ++ ")"

/-- Embeds the `.iter().enumerate().map(...).collect::<Result<_>>()` stage
of `to_dimensions` (create.rs lines 409-422): each dimension must be
`>= 1`, the first offending one (left to right, `collect` short-circuits)
yields an `InvalidArgument` error naming its index `i`. -/
def checkDims (i : Nat) : List Int → OrtResult (List Int)
  | [] => Except.ok []
  | c :: rest =>
    if 1 ≤ c then (checkDims (i + 1) rest).map (fun v => c :: v)
    else Except.error ⟨ErrorCode.InvalidArgument, invalidDimMsg i⟩

/-- Embeds `ToDimensions::to_dimensions` for the integer-slice
implementations (create.rs lines 406-448, instantiated at `&[i64]`,
`Vec<i64>`, etc.): validate every dimension is `>= 1`, then, when an
expected element count is supplied, require the dimension product to equal
it exactly, else fail with `InvalidArgument` naming both counts. -/
def to_dimensions (dims : List Int) (expected_size : Option Nat) : OrtResult (List Int) := do
  let v ← checkDims 0 dims
  let sum := calculate_tensor_size v
  match expected_size with
  | some expected =>
    if sum ≠ expected then
      Except.error ⟨ErrorCode.InvalidArgument, sizeMismatchMsg v sum expected⟩
    else
      Except.ok v
  | none => Except.ok v

/-- Index of the first dimension `< 1`, used to state the validation
theorem; `none` when all dimensions are `>= 1`. -/
def firstInvalidDim : List Int → Option Nat
  | [] => none
  | c :: rest => if c < 1 then some 0 else (firstInvalidDim rest).map (· + 1)

/-- Tensor element types (`TensorElementType` in `src/tensor/mod.rs`,
referenced by the embedded code through `T::into_tensor_element_type()`).
The claims only compare these for equality. -/
inductive TensorElementType where
  | Float32
  | Float64
  | Int8
  | Int16
  | Int32
  | Int64
  | UInt8
  | UInt16
  | UInt32
  | UInt64
  | Bool
  | String
  | Float16
  | Bfloat16
deriving DecidableEq, Repr

/-- The live type descriptor of a `Value` (spec §3: tagged variant
`Tensor{element_type, dimensions, dimension_symbols} | Sequence | Map |
Unknown`; the `Tensor` variant's fields are exactly those the embedded
constructors in `create.rs` populate). -/
inductive ValueType where
  | Tensor (ty : TensorElementType) (dimensions : List Int) (dimension_symbols : List (Option String))
  | Sequence
  | Map
  | Unknown
deriving DecidableEq, Repr

/-- Embeds `DowncastableTarget::can_downcast` for `TensorValueType<T>`
(`src/value/impl_tensor/mod.rs` lines 209-218): a match on the live type
descriptor, true exactly when it is a `Tensor` whose element type equals
`T`'s tensor element type. A pure metadata comparison: no engine state
appears in its signature. -/
def TensorValueType.can_downcast (t : TensorElementType) (dtype : ValueType) : Bool :=
  match dtype with
  | ValueType.Tensor ty _ _ => ty = t
  | _ => false

/-- Embeds `DowncastableTarget::can_downcast` for `DynTensorValueType`
(`src/value/impl_tensor/mod.rs` lines 58-64): true for any `Tensor`
descriptor. -/
def DynTensorValueType.can_downcast (dtype : ValueType) : Bool :=
  match dtype with
  | ValueType.Tensor _ _ _ => true
  | _ => false

/-- Modelled from the spec: `MemoryInfo` (`src/memory.rs`, not available
under `src/`) records "which device/allocator the underlying buffer lives
on (host-accessible or not); used to gate unsafe direct indexing"
(spec §3). Only the host-accessibility bit is observed by the embedded
code (`is_cpu_accessible`). -/
structure MemoryInfo where
  cpu_accessible : Bool
deriving DecidableEq, Repr

/-- The `MemoryInfo::new(AllocationDevice::CPU, 0, AllocatorType::Arena,
MemoryType::CPUInput)` descriptor the numeric constructors build
(create.rs lines 184, 228, 275): CPU memory, host-accessible. -/
def cpu_input_memory_info : MemoryInfo := ⟨true⟩

/-- Modelled from the spec: `MemoryInfo::from_value` (`src/memory.rs`, not
available under `src/`) queries the engine for the device descriptor of a
value's buffer; for a tensor value the query yields that descriptor
(spec §3 lists `memory_info` as part of every tensor Value's metadata). -/
def MemoryInfo.from_value (is_tensor : Bool) (queried : MemoryInfo) : Option MemoryInfo :=
  if is_tensor then some queried else none

/-- Outcome of a direct-index operation, which the source performs with
`panic!`/`.expect` rather than a `Result` (mod.rs lines 231-254). -/
inductive IndexOutcome (α : Type) where
  | panicked (msg : String)
  | value (a : α)
deriving DecidableEq, Repr

/-- Embeds `Index::index` / `IndexMut::index_mut` for `Tensor<T>`
(`src/value/impl_tensor/mod.rs` lines 231-254). `tensor_at` stands for
the engine's `TensorAt` element-address call, `some addr` on success and
`none` on a failure status. The second component of the result records
whether the engine call was made. If `memory_info` does not report
CPU-accessible memory the operation panics before any engine call;
otherwise `TensorAt` runs and a failure status panics via `.expect`. -/
def tensor_index (mem : MemoryInfo) (tensor_at : List Int → Option Nat) (index : List Int) :
    IndexOutcome Nat × Bool :=
  if ¬ mem.cpu_accessible then
    (IndexOutcome.panicked "Cannot directly index a tensor which is not allocated on the CPU.", false)
  else
    match tensor_at index with
    | some addr => (IndexOutcome.value addr, true)
    | none => (IndexOutcome.panicked "Failed to index tensor", true)

/-- Splits a character sequence on the dot character exactly as Rust's
`str::split(a_dot)` does: `"1.17.0"` gives `["1", "17", "0"]`, the empty
string gives one empty component, and a trailing dot yields a trailing
empty component. -/
def splitCharsOnDot : List Char → List (List Char)
  | [] => [[]]
  | c :: rest =>
    if c = '.' then [] :: splitCharsOnDot rest
    else
      match splitCharsOnDot rest with
      | [] => [[c]]
      | g :: gs => (c :: g) :: gs

/-- Value of one ASCII digit, `none` for any other character. -/
def digitVal (c : Char) : Option Nat :=
  if '0' ≤ c ∧ c ≤ '9' then some (c.toNat - 48) else none

/-- Accumulates a decimal number over digits, failing on the first
non-digit. -/
def parseDigitsAux (acc : Nat) : List Char → Option Nat
  | [] => some acc
  | c :: rest =>
    match digitVal c with
    | some d => parseDigitsAux (acc * 10 + d) rest
    | none => none

/-- Parses one dot-separated component as Rust's `str::parse::<u32>` does
in `api` (lib.rs line 159): a non-empty run of ASCII digits with an
optional leading plus sign, rejecting values that overflow `u32`. -/
def parseU32 (cs : List Char) : Option Nat :=
  let cs2 :=
    match cs with
    | c :: rest => if c = '+' then rest else cs
    | [] => cs
  match cs2 with
  | [] => none
  | _ =>
    match parseDigitsAux 0 cs2 with
    | some v => if v < 2 ^ 32 then some v else none
    | none => none

/-- Embeds the minor-version extraction in `api` (lib.rs line 159):
`version_string.split(a_dot).nth(1).map_or(0, parse.unwrap_or(0))`. -/
def parseMinorVersion (version_string : String) : Nat :=
  match (splitCharsOnDot version_string.toList).get? 1 with
  | some cs => (parseU32 cs).getD 0
  | none => 0

/-- Outcome of entry-point resolution (`api`, lib.rs lines 135-190):
either a fatal panic before any entry point is usable, or a resolved
table pointer together with whether the compatibility warning fired. -/
inductive ApiResolution where
  | fatal (msg : String)
  | resolved (api_ptr : Nat) (warned : Bool)
deriving DecidableEq, Repr

/-- The panic message of the version gate (lib.rs lines 161-165),
parameterised by the data it interpolates. -/
def versionGateFatalMsg (expected_minor : Nat) (version_string : String) : String :=
  "ort is not compatible with the ONNX Runtime binary found; expected GetVersionString to return 1." ++ toString expected_minor ++ ".x, but got " ++ version_string

/-- Embeds the dynamic-loading branch of `api` (`src/lib.rs` lines
144-177) from the point the version string has been read: extract the
library's minor version, compare against the binding's compiled-against
minor version (`MINOR_VERSION = ort_sys::ORT_API_VERSION`, here the
parameter `expected_minor`), panic on `Less`, warn on `Greater`, stay
silent on `Equal`; only then call `GetApi(ORT_API_VERSION)` (the oracle
`get_api`), whose null result is itself fatal. -/
def api_resolve (version_string : String) (expected_minor : Nat) (get_api : Nat → Option Nat) :
    ApiResolution :=
  let lib_minor_version := parseMinorVersion version_string
  if lib_minor_version < expected_minor then
    ApiResolution.fatal (versionGateFatalMsg expected_minor version_string)
  else
    match get_api expected_minor with
    | some api_ptr => ApiResolution.resolved api_ptr (lib_minor_version > expected_minor)
    | none => ApiResolution.fatal "Failed to initialize ORT API"

/-- The platforms distinguished by the `cfg` attributes in `dylib_path`
(lib.rs lines 65-70). -/
inductive Platform where
  | windows
  | linux
  | macos
deriving DecidableEq, Repr

/-- The platform-specific default library name (lib.rs lines 65-70). -/
def platform_default_lib : Platform → String
  | Platform.windows => "onnxruntime.dll"
  | Platform.linux => "libonnxruntime.so"
  | Platform.macos => "libonnxruntime.dylib"

/-- Embeds `dylib_path` (`src/lib.rs` lines 61-74): the `ORT_DYLIB_PATH`
environment variable (`none` when unset or unreadable) is used when set
and non-empty, else the platform default name. -/
def dylib_path (platform : Platform) (env_var : Option String) : String :=
  match env_var with
  | some s => if ¬ s.isEmpty then s else platform_default_lib platform
  | none => platform_default_lib platform

/-- Path concatenation as `PathBuf::join` performs it for the inputs the
embedded code builds (a directory joined with a relative path). -/
def path_join (dir p : String) : String := dir ++ "/" ++ p

/-- Embeds the path-resolution step of `lib_handle` (`src/lib.rs` lines
79-90): an absolute path is used as-is; a relative path is joined onto
the current executable's directory and that joined path is used only if a
file exists there, else the original path is passed to the loader (which
then consults the library search path). `is_absolute` and `file_exists`
stand for the platform's checks. -/
def resolve_lib_path (path : String) (is_absolute : String → Bool) (exe_dir : String)
    (file_exists : String → Bool) : String :=
  if is_absolute path then path
  else
    let relative := path_join exe_dir path
    if file_exists relative then relative else path

/-- Embeds the loading step of `lib_handle` (`src/lib.rs` lines 91-93):
`libloading::Library::new` on the resolved path; a failure is an
unconditional panic (`unwrap_or_else(|e| panic!(..))`), modelled as the
error case. `load` is the platform loader oracle. -/
def lib_handle_load (resolved : String) (load : String → Option Nat) : Except String Nat :=
  match load resolved with
  | some handle => Except.ok handle
  | none =>
    Except.error ("An error occurred while attempting to load the ONNX Runtime binary at " ++ resolved)

/-- True when the string contains an interior NUL byte, the condition
under which `CString::new` fails. -/
def hasInteriorNul (s : String) : Bool := s.toList.contains (Char.ofNat 0)

/-- The candle backend's local error object (`backends/candle/error.rs`
lines 3-7): an `OrtErrorCode` plus a `CString` message. The `CString`
invariant (no interior NUL) is maintained by the constructor. -/
structure CandleError where
  code : ErrorCode
  message : String
deriving DecidableEq, Repr

/-- Embeds `Error::new` (`backends/candle/error.rs` lines 10-15):
`CString::new(message).unwrap()` panics when the message holds an
interior NUL byte, modelled as `none`. -/
def CandleError.new (code : ErrorCode) (message : String) : Option CandleError :=
  if hasInteriorNul message then none else some ⟨code, message⟩

/-- The heap of boxed `Error` objects leaked by `into_sys`; a "pointer" is
an index into this list of live allocations. -/
structure StatusHeap where
  cells : List CandleError
deriving DecidableEq, Repr

/-- Embeds `Error::into_sys` (`backends/candle/error.rs` lines 17-19):
`Box::leak(Box::new(self))` allocates the error on the heap and returns
its address cast to the opaque `*mut OrtStatus`. -/
def CandleError.into_sys (e : CandleError) (h : StatusHeap) : Nat × StatusHeap :=
  (h.cells.length, ⟨h.cells ++ [e]⟩)

/-- Embeds `Error::cast_from_sys` (`backends/candle/error.rs` lines
35-37): reinterprets the status pointer as a borrowed `&Error` and reads
it; dereferencing a pointer that was not produced by `into_sys` is
undefined, modelled as `none`. -/
def CandleError.cast_from_sys (p : Nat) (h : StatusHeap) : Option CandleError :=
  h.cells.get? p

/-- Embeds `Error::consume_sys` (`backends/candle/error.rs` lines 39-41):
`Box::from_raw` reclaims ownership of the allocation, yielding the boxed
`Error` (and freeing the cell). -/
def CandleError.consume_sys (p : Nat) (h : StatusHeap) : Option CandleError :=
  h.cells.get? p

/-- Events observable on a shared `Arc<ValueInner>`: `clone` covers
`Clone::clone` and the `Arc::clone(&self.inner)` inside `upcast_ref` /
`upcast_mut` (mod.rs lines 176-206); `drop` is a wrapper being dropped. -/
inductive RcEvent where
  | clone
  | drop
deriving DecidableEq, Repr

/-- State of one shared `ValueInner`: the atomic strong count, the number
of engine `Release` calls made so far for the handle, and the
`release_on_drop` flag (the `drop: bool` field every constructor in
create.rs sets). -/
structure RcState where
  strong : Nat
  releases : Nat
  release_on_drop : Bool
deriving DecidableEq, Repr

/-- Modelled from the spec: `ValueInner`'s destructor lives in
`src/value/mod.rs`, which is not available under `src/`. Per spec §3
("the release function fires exactly once, when the last shared reference
is dropped, and only if `release_on_drop` is true") and §4.1 `drop()`,
a clone increments the strong count; a drop decrements it, and the
wrapper that removes the last reference runs the destructor, which calls
the engine's release entry point exactly when `release_on_drop` is set.
Events on a dead value (strong count 0) are impossible and yield `none`. -/
def rcStep (s : RcState) : RcEvent → Option RcState
  | RcEvent.clone =>
    if s.strong = 0 then none else some { s with strong := s.strong + 1 }
  | RcEvent.drop =>
    if s.strong = 0 then none
    else if s.strong = 1 then
      some { s with strong := 0, releases := s.releases + (if s.release_on_drop then 1 else 0) }
    else some { s with strong := s.strong - 1 }

/-- Runs a sequence of clone/drop events from a state. -/
def rcRun (s : RcState) : List RcEvent → Option RcState
  | [] => some s
  | e :: rest => (rcStep s e).bind (fun s2 => rcRun s2 rest)

/-- The state of a freshly constructed Value: one wrapper alive, no
release calls made, with the constructor's `drop` flag. -/
def rcInit (flag : Bool) : RcState := ⟨1, 0, flag⟩

/-- An `ndarray` array or view over numeric elements (elements modelled as
`Int`): its shape, its elements in logical row-major order, and whether
its in-memory layout is contiguous standard (row-major) layout — the
property `is_standard_layout` tests and `as_slice` requires. -/
structure NdArray where
  shape : List Nat
  data : List Int
  standard_layout : Bool
deriving DecidableEq, Repr

/-- The behaviour of `ndarray`'s `as_slice`: a borrowed contiguous slice
of the elements when the layout is contiguous standard layout, `none`
otherwise. -/
def NdArray.as_slice (a : NdArray) : Option (List Int) :=
  if a.standard_layout then some a.data else none

/-- The behaviour of `ndarray`'s `as_standard_layout().into_owned()`: a
freshly allocated owned array holding the same elements in contiguous
standard layout. -/
def NdArray.as_standard_layout_owned (a : NdArray) : NdArray :=
  { shape := a.shape, data := a.data, standard_layout := true }

/-- The type-erased lifetime anchor (`Box<dyn Any>` guard) a constructor
stores as the Value's `_backing`: which object keeps the referenced
memory alive. `arcArray` / `arcBox` carry the identity of the shared
buffer whose handle was cloned. -/
inductive Guard where
  | array (a : NdArray)
  | vec (data : List Int)
  | boxed (data : List Int)
  | arcArray (buffer_id : Nat)
  | arcBox (buffer_id : Nat)
deriving DecidableEq, Repr

/-- The `(shape, ptr, num_elements, guard)` tuple `into_parts` produces
(create.rs lines 395-400). `data` is the contiguous memory the raw
pointer addresses; `copied` records whether producing it allocated a
fresh buffer and copied the elements into it (the `else` branch of
`Array::into_parts`). -/
structure TensorArrayDataParts where
  shape : List Int
  data : List Int
  num_elements : Nat
  guard : Guard
  copied : Bool
deriving DecidableEq, Repr

/-- Embeds `OwnedTensorArrayData::into_parts` for `ndarray::Array`
(create.rs lines 499-518): a standard-layout array is used as-is, boxed
to become its own guard, no copy; a non-standard-layout array is copied
into a fresh contiguous owned array, which becomes the guard. -/
def Array.into_parts (a : NdArray) : OrtResult TensorArrayDataParts :=
  if a.standard_layout then
    Except.ok
      { shape := a.shape.map Int.ofNat, data := a.data, num_elements := a.data.length,
        guard := Guard.array a, copied := false }
  else
    let contiguous_array := a.as_standard_layout_owned
    Except.ok
      { shape := contiguous_array.shape.map Int.ofNat, data := contiguous_array.data,
        num_elements := contiguous_array.data.length, guard := Guard.array contiguous_array,
        copied := true }

/-- The error every non-contiguous `ref_parts` implementation returns
(create.rs lines 468, 480, 492, 527, 539, 551). `Error::new` attaches the
generic failure code. -/
def nonContiguousErr : OrtError :=
  ⟨ErrorCode.Fail, "Array has a non-contiguous layout and cannot be used to construct a Tensor"⟩

/-- The `(shape, data, guard)` triple `ref_parts` produces: the borrowed
element slice plus an optional lifetime anchor. Borrowed paths never
allocate, so no `copied` flag exists here. -/
structure TensorArrayDataRef where
  shape : List Int
  data : List Int
  guard : Option Guard
deriving DecidableEq, Repr

/-- Embeds `TensorArrayData::ref_parts` for `ndarray::ArrayView`
(create.rs lines 522-530): the shape, plus `as_slice()` of the view —
which fails with the non-contiguity error when the view is not in
contiguous standard layout — and no guard. -/
def ArrayView.ref_parts (a : NdArray) : OrtResult TensorArrayDataRef :=
  match a.as_slice with
  | some data => Except.ok ⟨a.shape.map Int.ofNat, data, none⟩
  | none => Except.error nonContiguousErr

/-- Embeds `TensorArrayData::ref_parts` for `&ndarray::Array` and
`&CowArray` (create.rs lines 463-471 and 487-495): identical to the view
case — `as_slice()` or the non-contiguity error, no guard. -/
def BorrowedArray.ref_parts (a : NdArray) : OrtResult TensorArrayDataRef :=
  match a.as_slice with
  | some data => Except.ok ⟨a.shape.map Int.ofNat, data, none⟩
  | none => Except.error nonContiguousErr

/-- Embeds `TensorArrayData::ref_parts` for `ndarray::ArcArray`
(create.rs lines 475-483): `as_slice()` or the non-contiguity error; a
clone of the shared handle (identified by `buffer_id`) becomes the
guard. -/
def ArcArray.ref_parts (buffer_id : Nat) (a : NdArray) : OrtResult TensorArrayDataRef :=
  match a.as_slice with
  | some data => Except.ok ⟨a.shape.map Int.ofNat, data, some (Guard.arcArray buffer_id)⟩
  | none => Except.error nonContiguousErr

/-- Embeds `TensorArrayData::ref_parts` for `(D, &[T])` raw slices
(create.rs lines 556-561): validate the dimensions against the slice
length, borrow the slice, no guard. -/
def RawSlice.ref_parts (dims : List Int) (data : List Int) : OrtResult TensorArrayDataRef := do
  let shape ← to_dimensions dims (some data.length)
  Except.ok ⟨shape, data, none⟩

/-- Embeds `TensorArrayData::ref_parts` for `(D, Arc<Box<[T]>>)`
(create.rs lines 613-619): validate dimensions, borrow the shared buffer
(identified by `buffer_id`), and store a clone of the shared handle as
the guard. -/
def RawArcBox.ref_parts (buffer_id : Nat) (dims : List Int) (data : List Int) :
    OrtResult TensorArrayDataRef := do
  let shape ← to_dimensions dims (some data.length)
  Except.ok ⟨shape, data, some (Guard.arcBox buffer_id)⟩

/-- Embeds `OwnedTensorArrayData::into_parts` for `(D, Vec<T>)`
(create.rs lines 577-589): validate dimensions, take the vector's own
memory as the data pointer, and box the vector itself as the guard; no
copy. -/
def RawVec.into_parts (dims : List Int) (data : List Int) : OrtResult TensorArrayDataParts := do
  let shape ← to_dimensions dims (some data.length)
  Except.ok
    { shape := shape, data := data, num_elements := data.length, guard := Guard.vec data,
      copied := false }

/-- Embeds `OwnedTensorArrayData::into_parts` for `(D, Box<[T]>)`
(create.rs lines 599-611): as for `Vec<T>`, zero-copy with the boxed
slice as guard. -/
def RawBox.into_parts (dims : List Int) (data : List Int) : OrtResult TensorArrayDataParts := do
  let shape ← to_dimensions dims (some data.length)
  Except.ok
    { shape := shape, data := data, num_elements := data.length, guard := Guard.boxed data,
      copied := false }

/-- The forms accepted by `Tensor::from_array` (the
`OwnedTensorArrayData` implementations). -/
inductive OwnedInput where
  | ndarray (a : NdArray)
  | vec (dims : List Int) (data : List Int)
  | boxed (dims : List Int) (data : List Int)
deriving DecidableEq, Repr

/-- Dispatches `into_parts` over the `OwnedTensorArrayData`
implementations. -/
def OwnedInput.into_parts : OwnedInput → OrtResult TensorArrayDataParts
  | OwnedInput.ndarray a => Array.into_parts a
  | OwnedInput.vec dims data => RawVec.into_parts dims data
  | OwnedInput.boxed dims data => RawBox.into_parts dims data

/-- The forms accepted by `TensorRef::from_array_view` (the
`TensorArrayData` implementations). -/
inductive BorrowedInput where
  | view (a : NdArray)
  | borrowed_array (a : NdArray)
  | arc_array (buffer_id : Nat) (a : NdArray)
  | slice (dims : List Int) (data : List Int)
  | arc_box (buffer_id : Nat) (dims : List Int) (data : List Int)
deriving DecidableEq, Repr

/-- Dispatches `ref_parts` over the `TensorArrayData` implementations. -/
def BorrowedInput.ref_parts : BorrowedInput → OrtResult TensorArrayDataRef
  | BorrowedInput.view a => ArrayView.ref_parts a
  | BorrowedInput.borrowed_array a => BorrowedArray.ref_parts a
  | BorrowedInput.arc_array id a => ArcArray.ref_parts id a
  | BorrowedInput.slice dims data => RawSlice.ref_parts dims data
  | BorrowedInput.arc_box id dims data => RawArcBox.ref_parts id dims data

/-- The shared inner state of a `Value` (the `ValueInner` fields every
constructor in create.rs populates: handle pointer, type descriptor,
optional memory info, the `drop` release flag, optional backing
anchor). -/
structure ValueInner where
  ptr : Nat
  dtype : ValueType
  memory_info : Option MemoryInfo
  release_on_drop : Bool
  backing : Option Guard
deriving DecidableEq, Repr

/-- Embeds `Value::memory_info` (`src/value/impl_tensor/mod.rs` lines
139-141): unwraps the optional field without checking
(`unwrap_unchecked`) — undefined behaviour, modelled as `none`, when the
field is absent. -/
def Value.memory_info (inner : ValueInner) : Option MemoryInfo :=
  inner.memory_info

/-- Embeds `Tensor::from_array` (create.rs lines 183-223): build the CPU
`MemoryInfo`, split the input into parts, hand the contiguous buffer to
`CreateTensorWithDataAsOrtValue` (the engine call is assumed to succeed,
producing the non-null `value_ptr`), and wrap the handle with
`drop: true`, the explicit CPU memory info, and the parts' guard as
backing anchor. The parts are returned alongside so the copy policy is
observable. -/
def Tensor.from_array (ty : TensorElementType) (input : OwnedInput) (value_ptr : Nat) :
    OrtResult (ValueInner × TensorArrayDataParts) := do
  let parts ← input.into_parts
  Except.ok
    ({ ptr := value_ptr,
       dtype := ValueType.Tensor ty parts.shape (List.replicate parts.shape.length none),
       memory_info := some cpu_input_memory_info, release_on_drop := true,
       backing := some parts.guard },
     parts)

/-- Embeds `TensorRef::from_array_view` (create.rs lines 227-270): build
the CPU `MemoryInfo`, borrow the input's parts, call
`CreateTensorWithDataAsOrtValue` on the borrowed buffer (assumed to
succeed), and wrap with `drop: true`, the CPU memory info, and the
optional guard as backing. -/
def TensorRef.from_array_view (ty : TensorElementType) (input : BorrowedInput) (value_ptr : Nat) :
    OrtResult (ValueInner × TensorArrayDataRef) := do
  let parts ← input.ref_parts
  Except.ok
    ({ ptr := value_ptr,
       dtype := ValueType.Tensor ty parts.shape (List.replicate parts.shape.length none),
       memory_info := some cpu_input_memory_info, release_on_drop := true,
       backing := parts.guard },
     parts)

/-- Embeds `TensorRefMut::from_array_view_mut` (create.rs lines 274-317):
identical wrapping to `from_array_view`, over the mutable `ref_parts_mut`
implementations (which compute the same shapes, slices and guards as
their shared counterparts). -/
def TensorRefMut.from_array_view_mut (ty : TensorElementType) (input : BorrowedInput)
    (value_ptr : Nat) : OrtResult (ValueInner × TensorArrayDataRef) := do
  let parts ← input.ref_parts
  Except.ok
    ({ ptr := value_ptr,
       dtype := ValueType.Tensor ty parts.shape (List.replicate parts.shape.length none),
       memory_info := some cpu_input_memory_info, release_on_drop := true,
       backing := parts.guard },
     parts)

/-- Embeds `TensorRefMut::from_raw` (create.rs lines 342-380): no
validation beyond the shape-size arithmetic; wraps with `drop: true`, the
caller's `MemoryInfo`, and no backing anchor. -/
def TensorRefMut.from_raw (ty : TensorElementType) (info : MemoryInfo) (shape : List Int)
    (value_ptr : Nat) : ValueInner :=
  { ptr := value_ptr,
    dtype := ValueType.Tensor ty shape (List.replicate shape.length none),
    memory_info := some info, release_on_drop := true, backing := none }

/-- Embeds `Tensor::new` (create.rs lines 114-146): validate the shape
with `to_dimensions(None)`, have the engine allocate the tensor
(`CreateTensorAsOrtValue`, assumed to succeed with `value_ptr`), and wrap
with `drop: true`, `MemoryInfo::from_value` of the new tensor value
(`queried` is what the engine reports for it), and no backing anchor. -/
def Tensor.new (ty : TensorElementType) (dims : List Int) (value_ptr : Nat)
    (queried : MemoryInfo) : OrtResult ValueInner := do
  let shape ← to_dimensions dims none
  Except.ok
    { ptr := value_ptr,
      dtype := ValueType.Tensor ty shape (List.replicate shape.length none),
      memory_info := MemoryInfo.from_value true queried, release_on_drop := true,
      backing := none }

/-- The engine-side contents of a string tensor: its shape and the
decoded copies of the strings `FillStringTensor` stored. -/
structure StringTensor where
  shape : List Int
  strings : List String
deriving DecidableEq, Repr

/-- Embeds the `CString::new` copy loop of `from_string_array` (create.rs
lines 65-72): each element is copied into a fresh null-terminated buffer;
an element with an interior NUL byte fails the whole construction
(`Error::wrap` of the `NulError`). -/
def nullTerminatedCopies : List String → OrtResult (List String)
  | [] => Except.ok []
  | s :: rest =>
    if hasInteriorNul s then
      Except.error ⟨ErrorCode.Fail, "nul byte found in provided data"⟩
    else (nullTerminatedCopies rest).map (fun cs => s :: cs)

/-- Embeds `Tensor::<String>::from_string_array` for the raw
`(dimensions, data)` input form (create.rs lines 51-92): take
`ref_parts` of the input (dimension validation against the element
count), have the engine allocate an empty string tensor
(`CreateTensorAsOrtValue`, assumed to succeed with `value_ptr`), copy
every string into a null-terminated buffer, fill the tensor with the
copies (`FillStringTensor`), and wrap the handle with `drop: true`,
`MemoryInfo::from_value` of the value, and no backing anchor. Returns the
wrapper together with the engine-side tensor contents. -/
def Tensor.from_string_array (dims : List Int) (data : List String) (value_ptr : Nat)
    (queried : MemoryInfo) : OrtResult (ValueInner × StringTensor) := do
  let shape ← to_dimensions dims (some data.length)
  let null_terminated_copies ← nullTerminatedCopies data
  Except.ok
    ({ ptr := value_ptr,
       dtype := ValueType.Tensor TensorElementType.String shape (List.replicate shape.length none),
       memory_info := MemoryInfo.from_value true queried, release_on_drop := true,
       backing := none },
     { shape := shape, strings := null_terminated_copies })

/-- Modelled from the spec: string-tensor extraction
(`try_extract_raw_string_tensor`, in `src/value/impl_tensor/extract.rs`,
not available under `src/`) reads back the engine-stored strings and the
shape; per spec §8 it returns the stored sequence as host strings. -/
def extract_raw_string_tensor (t : StringTensor) : List Int × List String :=
  (t.shape, t.strings)

/-! Theorems about the embedded code. -/

theorem except_bind_ok {α β ε : Type} (a : α) (f : α → Except ε β) :
    (Except.ok a : Except ε α) >>= f = f a := rfl

theorem except_bind_error {α β ε : Type} (e : ε) (f : α → Except ε β) :
    (Except.error e : Except ε α) >>= f = Except.error e := rfl

theorem checkDims_of_all_valid (dims : List Int) (h : firstInvalidDim dims = none) (i : Nat) :
    checkDims i dims = Except.ok dims := by
  induction dims generalizing i with
  | nil => rfl
  | cons c rest ih =>
    unfold firstInvalidDim at h
    by_cases hc : c < 1
    · simp [hc] at h
    · have h1 : (1 : Int) ≤ c := by omega
      simp only [if_neg hc, Option.map_eq_none'] at h
      unfold checkDims
      rw [if_pos h1, ih h i.succ]
      rfl

theorem checkDims_of_invalid (dims : List Int) (j : Nat) (h : firstInvalidDim dims = some j)
    (i : Nat) :
    checkDims i dims = Except.error ⟨ErrorCode.InvalidArgument, invalidDimMsg (i + j)⟩ := by
  induction dims generalizing i j with
  | nil => simp [firstInvalidDim] at h
  | cons c rest ih =>
    unfold firstInvalidDim at h
    by_cases hc : c < 1
    · simp only [if_pos hc, Option.some.injEq] at h
      have hnot : ¬ (1 : Int) ≤ c := by omega
      unfold checkDims
      rw [if_neg hnot, ← h]
      rfl
    · simp only [if_neg hc, Option.map_eq_some'] at h
      obtain ⟨j2, hj2, hji⟩ := h
      have h1 : (1 : Int) ≤ c := by omega
      unfold checkDims
      rw [if_pos h1, ih j2 hj2 (i + 1)]
      have hij : i + 1 + j2 = i + j := by omega
      rw [hij]
      rfl

/-- C2: for every requested shape and element count, `to_dimensions`
fails with an `InvalidArgument` error naming the (first) offending
dimension index whenever any dimension is `< 1`; with all dimensions
valid it fails with an `InvalidArgument` error naming the expected and
actual counts whenever the dimension product differs from the supplied
element count, and otherwise accepts the dimension list unchanged. -/
theorem to_dimensions_validation (dims : List Int) (n : Nat) :
    (∀ i, firstInvalidDim dims = some i →
      to_dimensions dims (some n) = Except.error ⟨ErrorCode.InvalidArgument, invalidDimMsg i⟩)
  ∧ (firstInvalidDim dims = none → calculate_tensor_size dims = n →
      to_dimensions dims (some n) = Except.ok dims)
  ∧ (firstInvalidDim dims = none → calculate_tensor_size dims ≠ n →
      to_dimensions dims (some n) =
        Except.error ⟨ErrorCode.InvalidArgument, sizeMismatchMsg dims (calculate_tensor_size dims) n⟩) := by
  refine ⟨?_, ?_, ?_⟩
  · intro i hi
    have h0 := checkDims_of_invalid dims i hi 0
    rw [Nat.zero_add] at h0
    unfold to_dimensions
    rw [h0, except_bind_error]
  · intro hv hn
    unfold to_dimensions
    rw [checkDims_of_all_valid dims hv 0, except_bind_ok]
    simp [hn]
  · intro hv hn
    unfold to_dimensions
    rw [checkDims_of_all_valid dims hv 0, except_bind_ok]
    simp [hn]

/-- Witness for C2: all three branches of the validation at concrete
inputs. -/
theorem to_dimensions_validation_witness :
    to_dimensions [2, 0, 3] (some 6) = Except.error ⟨ErrorCode.InvalidArgument, invalidDimMsg 1⟩
  ∧ to_dimensions [2, 3] (some 6) = Except.ok [2, 3]
  ∧ to_dimensions [2, 3] (some 7) =
      Except.error ⟨ErrorCode.InvalidArgument, sizeMismatchMsg [2, 3] 6 7⟩ :=
  ⟨(to_dimensions_validation [2, 0, 3] 6).1 1 (by decide),
   (to_dimensions_validation [2, 3] 6).2.1 (by decide) (by decide),
   by
     have h := (to_dimensions_validation [2, 3] 7).2.2 (by decide) (by decide)
     rw [h]
     rfl⟩

/-- C3: `can_downcast` for the typed tensor marker returns true iff the
live type descriptor is a `Tensor` whose element type equals the target
type, and false for every mismatched target; `can_downcast` for the
untyped tensor marker returns true iff the descriptor is any `Tensor`.
Both are pure metadata comparisons: their definitions take only the host
metadata, no engine state. -/
theorem can_downcast_soundness (t : TensorElementType) (dtype : ValueType) :
    (TensorValueType.can_downcast t dtype = true ↔
      ∃ dims syms, dtype = ValueType.Tensor t dims syms)
  ∧ ((∀ dims syms, dtype ≠ ValueType.Tensor t dims syms) →
      TensorValueType.can_downcast t dtype = false)
  ∧ (DynTensorValueType.can_downcast dtype = true ↔
      ∃ ty dims syms, dtype = ValueType.Tensor ty dims syms) := by
  refine ⟨?_, ?_, ?_⟩
  · cases dtype with
    | Tensor ty dims syms =>
      simp only [TensorValueType.can_downcast, decide_eq_true_eq, ValueType.Tensor.injEq]
      constructor
      · intro h
        exact ⟨dims, syms, h, rfl, rfl⟩
      · intro ⟨d, s, hty, hd, hs⟩
        exact hty
    | Sequence => simp [TensorValueType.can_downcast]
    | Map => simp [TensorValueType.can_downcast]
    | Unknown => simp [TensorValueType.can_downcast]
  · intro hne
    cases dtype with
    | Tensor ty dims syms =>
      simp only [TensorValueType.can_downcast, decide_eq_false_iff_not]
      intro hty
      exact hne dims syms (by rw [hty])
    | Sequence => rfl
    | Map => rfl
    | Unknown => rfl
  · cases dtype with
    | Tensor ty dims syms =>
      simp [DynTensorValueType.can_downcast]
    | Sequence => simp [DynTensorValueType.can_downcast]
    | Map => simp [DynTensorValueType.can_downcast]
    | Unknown => simp [DynTensorValueType.can_downcast]

/-- Witness for C3: a matching and a mismatched downcast at concrete
descriptors. -/
theorem can_downcast_soundness_witness :
    TensorValueType.can_downcast TensorElementType.Float32
      (ValueType.Tensor TensorElementType.Float32 [2, 3] [none, none]) = true
  ∧ TensorValueType.can_downcast TensorElementType.Int64
      (ValueType.Tensor TensorElementType.Float32 [2, 3] [none, none]) = false
  ∧ DynTensorValueType.can_downcast ValueType.Sequence = false :=
  ⟨(can_downcast_soundness TensorElementType.Float32
      (ValueType.Tensor TensorElementType.Float32 [2, 3] [none, none])).1.mpr
      ⟨[2, 3], [none, none], rfl⟩,
   (can_downcast_soundness TensorElementType.Int64
      (ValueType.Tensor TensorElementType.Float32 [2, 3] [none, none])).2.1
      (by intro dims syms h; injection h with h1; cases h1),
   by decide⟩

/-- C4 counterexample: the claim asserts that a non-contiguous array
view supplied to tensor construction has its data copied into a fresh
contiguous buffer; on the 2x2 view with non-standard layout the code
instead rejects the construction with the non-contiguity error
(`ArrayView::ref_parts`, create.rs lines 522-530), so no copy happens
and no Value is produced. -/
theorem noncontiguous_view_copy_counterexample :
    ArrayView.ref_parts ⟨[2, 2], [1, 2, 3, 4], false⟩ = Except.error nonContiguousErr
  ∧ TensorRef.from_array_view TensorElementType.Int64
      (BorrowedInput.view ⟨[2, 2], [1, 2, 3, 4], false⟩) 1 = Except.error nonContiguousErr := by
  constructor <;> rfl

/-- C4 (amended): a non-contiguous *owned* array passed by value is
copied into a freshly allocated contiguous owned buffer which becomes the
backing guard, and that owned-array branch is the only numeric-data path
that duplicates data; a non-contiguous *borrowed* array view is rejected
with an error rather than copied; contiguous borrowed, owned and
shared-owned inputs are zero-copy (the borrowed paths hand out the
caller's slice, the shared path stores only a clone of the shared
handle). -/
theorem numeric_copy_policy (a : NdArray) (oi : OwnedInput) (buffer_id : Nat)
    (dims : List Int) (data : List Int) :
    (a.standard_layout = false →
      Array.into_parts a = Except.ok
        { shape := a.shape.map Int.ofNat, data := a.data, num_elements := a.data.length,
          guard := Guard.array a.as_standard_layout_owned, copied := true })
  ∧ (a.standard_layout = true →
      Array.into_parts a = Except.ok
        { shape := a.shape.map Int.ofNat, data := a.data, num_elements := a.data.length,
          guard := Guard.array a, copied := false })
  ∧ (a.standard_layout = false → ArrayView.ref_parts a = Except.error nonContiguousErr)
  ∧ (a.standard_layout = true →
      ArrayView.ref_parts a = Except.ok ⟨a.shape.map Int.ofNat, a.data, none⟩)
  ∧ (a.standard_layout = true →
      ArcArray.ref_parts buffer_id a =
        Except.ok ⟨a.shape.map Int.ofNat, a.data, some (Guard.arcArray buffer_id)⟩)
  ∧ (∀ p, RawVec.into_parts dims data = Except.ok p →
      p.copied = false ∧ p.data = data ∧ p.guard = Guard.vec data)
  ∧ (∀ p, oi.into_parts = Except.ok p → p.copied = true →
      ∃ arr, oi = OwnedInput.ndarray arr ∧ arr.standard_layout = false ∧
        p.guard = Guard.array arr.as_standard_layout_owned) := by
  refine ⟨?_, ?_, ?_, ?_, ?_, ?_, ?_⟩
  · intro h
    simp [Array.into_parts, h, NdArray.as_standard_layout_owned]
  · intro h
    simp [Array.into_parts, h]
  · intro h
    simp [ArrayView.ref_parts, NdArray.as_slice, h]
  · intro h
    simp [ArrayView.ref_parts, NdArray.as_slice, h]
  · intro h
    simp [ArcArray.ref_parts, NdArray.as_slice, h]
  · intro p hp
    cases hto : to_dimensions dims (some data.length) with
    | ok shape =>
      rw [RawVec.into_parts, hto, except_bind_ok] at hp
      cases hp
      exact ⟨rfl, rfl, rfl⟩
    | error e =>
      rw [RawVec.into_parts, hto, except_bind_error] at hp
      cases hp
  · intro p hp hc
    cases oi with
    | ndarray arr =>
      by_cases hl : arr.standard_layout = true
      · have heq : Array.into_parts arr = Except.ok
            { shape := arr.shape.map Int.ofNat, data := arr.data,
              num_elements := arr.data.length, guard := Guard.array arr, copied := false } := by
          simp [Array.into_parts, hl]
        rw [show OwnedInput.into_parts (OwnedInput.ndarray arr) = Array.into_parts arr from rfl,
          heq] at hp
        cases hp
        simp at hc
      · have hl2 : arr.standard_layout = false := by
          revert hl
          cases arr.standard_layout <;> simp
        have heq : Array.into_parts arr = Except.ok
            { shape := arr.shape.map Int.ofNat, data := arr.data,
              num_elements := arr.data.length,
              guard := Guard.array arr.as_standard_layout_owned, copied := true } := by
          simp [Array.into_parts, hl2, NdArray.as_standard_layout_owned]
        rw [show OwnedInput.into_parts (OwnedInput.ndarray arr) = Array.into_parts arr from rfl,
          heq] at hp
        cases hp
        exact ⟨arr, rfl, hl2, rfl⟩
    | vec d2 dt2 =>
      cases hto : to_dimensions d2 (some dt2.length) with
      | ok shape =>
        rw [show OwnedInput.into_parts (OwnedInput.vec d2 dt2) = RawVec.into_parts d2 dt2 from rfl,
          RawVec.into_parts, hto, except_bind_ok] at hp
        cases hp
        simp at hc
      | error e =>
        rw [show OwnedInput.into_parts (OwnedInput.vec d2 dt2) = RawVec.into_parts d2 dt2 from rfl,
          RawVec.into_parts, hto, except_bind_error] at hp
        cases hp
    | boxed d2 dt2 =>
      cases hto : to_dimensions d2 (some dt2.length) with
      | ok shape =>
        rw [show OwnedInput.into_parts (OwnedInput.boxed d2 dt2) = RawBox.into_parts d2 dt2 from
          rfl, RawBox.into_parts, hto, except_bind_ok] at hp
        cases hp
        simp at hc
      | error e =>
        rw [show OwnedInput.into_parts (OwnedInput.boxed d2 dt2) = RawBox.into_parts d2 dt2 from
          rfl, RawBox.into_parts, hto, except_bind_error] at hp
        cases hp

/-- Witness for C4 (amended): the copy policy at concrete inputs — a
non-contiguous owned 2x2 array is copied with the fresh contiguous array
as guard, and the same data as a borrowed contiguous slice is zero-copy. -/
theorem numeric_copy_policy_witness :
    Array.into_parts ⟨[2, 2], [1, 2, 3, 4], false⟩ = Except.ok
      { shape := [2, 2], data := [1, 2, 3, 4], num_elements := 4,
        guard := Guard.array ⟨[2, 2], [1, 2, 3, 4], true⟩, copied := true }
  ∧ (∀ p, RawVec.into_parts [4] [1, 2, 3, 4] = Except.ok p →
      p.copied = false ∧ p.data = [1, 2, 3, 4] ∧ p.guard = Guard.vec [1, 2, 3, 4]) := by
  constructor
  · have h := (numeric_copy_policy ⟨[2, 2], [1, 2, 3, 4], false⟩ (OwnedInput.vec [] []) 0 [] []).1
      rfl
    rw [h]
    rfl
  · exact fun p hp =>
      (numeric_copy_policy ⟨[], [], true⟩ (OwnedInput.vec [] []) 0 [4] [1, 2, 3, 4]).2.2.2.2.2.1
        p hp

theorem nullTerminatedCopies_ok (data cs : List String)
    (h : nullTerminatedCopies data = Except.ok cs) : cs = data := by
  induction data generalizing cs with
  | nil =>
    cases h
    rfl
  | cons s rest ih =>
    unfold nullTerminatedCopies at h
    by_cases hs : hasInteriorNul s = true
    · rw [if_pos hs] at h
      cases h
    · rw [if_neg hs] at h
      cases hr : nullTerminatedCopies rest with
      | ok cs2 =>
        rw [hr] at h
        cases h
        rw [ih cs2 hr]
      | error e =>
        rw [hr] at h
        cases h

/-- C5: for every input sequence of N strings accepted by
`from_string_array` (each element is copied into a null-terminated
buffer on the way in — an element that cannot be, i.e. one with an
interior NUL, fails the construction, so no zero-copy path exists),
extraction of the resulting tensor returns exactly the N input strings,
including non-ASCII elements. -/
theorem string_round_trip (dims : List Int) (data : List String) (value_ptr : Nat)
    (queried : MemoryInfo) (inner : ValueInner) (t : StringTensor)
    (h : Tensor.from_string_array dims data value_ptr queried = Except.ok (inner, t)) :
    t.strings = data ∧ t.strings.length = data.length ∧
    extract_raw_string_tensor t = (t.shape, data) := by
  cases hd : to_dimensions dims (some data.length) with
  | error e =>
    rw [Tensor.from_string_array, hd, except_bind_error] at h
    cases h
  | ok shape =>
    cases hc : nullTerminatedCopies data with
    | error e =>
      rw [Tensor.from_string_array, hd, except_bind_ok, hc, except_bind_error] at h
      cases h
    | ok cs =>
      rw [Tensor.from_string_array, hd, except_bind_ok, hc, except_bind_ok] at h
      cases h
      have hcs := nullTerminatedCopies_ok data cs hc
      subst hcs
      exact ⟨rfl, rfl, rfl⟩

/-- Witness for C5: a two-element string tensor holding non-ASCII text
round-trips unchanged (mirrors the repository's `test_string_tensor_raw`
test, mod.rs lines 349-358). -/
theorem string_round_trip_witness :
    (⟨[2], ["hello world", "こんにちは世界"]⟩ : StringTensor).strings =
        ["hello world", "こんにちは世界"]
  ∧ (⟨[2], ["hello world", "こんにちは世界"]⟩ : StringTensor).strings.length =
        (["hello world", "こんにちは世界"] : List String).length
  ∧ extract_raw_string_tensor ⟨[2], ["hello world", "こんにちは世界"]⟩ =
        ((⟨[2], ["hello world", "こんにちは世界"]⟩ : StringTensor).shape,
         ["hello world", "こんにちは世界"]) :=
  string_round_trip [2] ["hello world", "こんにちは世界"] 1 ⟨true⟩
    ⟨1, ValueType.Tensor TensorElementType.String [2] [none], some ⟨true⟩, true, none⟩
    ⟨[2], ["hello world", "こんにちは世界"]⟩ (by rfl)

theorem get?_append_length {α : Type} (l : List α) (a : α) :
    (l ++ [a]).get? l.length = some a := by
  induction l with
  | nil => rfl
  | cons x xs ih => simp [ih]

/-- C6: boxing a local Error (code plus NUL-free message) into an opaque
status handle with `into_sys` and reclaiming it with `consume_sys` (or
inspecting it with `cast_from_sys`) yields an Error with the same code
and the same message: the round trip across the callback ABI boundary is
lossless. -/
theorem error_sys_round_trip (code : ErrorCode) (message : String) (e : CandleError)
    (heap : StatusHeap) (h : CandleError.new code message = some e) :
    CandleError.consume_sys (CandleError.into_sys e heap).1 (CandleError.into_sys e heap).2 =
        some ⟨code, message⟩
  ∧ CandleError.cast_from_sys (CandleError.into_sys e heap).1 (CandleError.into_sys e heap).2 =
        some ⟨code, message⟩ := by
  have he : e = ⟨code, message⟩ := by
    unfold CandleError.new at h
    by_cases hn : hasInteriorNul message = true
    · rw [if_pos hn] at h
      cases h
    · rw [if_neg hn] at h
      cases h
      rfl
  subst he
  exact ⟨get?_append_length heap.cells ⟨code, message⟩,
         get?_append_length heap.cells ⟨code, message⟩⟩

/-- Witness for C6: a concrete error boxed into a status handle on a
non-empty heap and reclaimed intact. -/
theorem error_sys_round_trip_witness :
    CandleError.consume_sys
        (CandleError.into_sys ⟨ErrorCode.Fail, "boom"⟩ ⟨[⟨ErrorCode.Ok, "prior"⟩]⟩).1
        (CandleError.into_sys ⟨ErrorCode.Fail, "boom"⟩ ⟨[⟨ErrorCode.Ok, "prior"⟩]⟩).2 =
      some ⟨ErrorCode.Fail, "boom"⟩
  ∧ CandleError.cast_from_sys
        (CandleError.into_sys ⟨ErrorCode.Fail, "boom"⟩ ⟨[⟨ErrorCode.Ok, "prior"⟩]⟩).1
        (CandleError.into_sys ⟨ErrorCode.Fail, "boom"⟩ ⟨[⟨ErrorCode.Ok, "prior"⟩]⟩).2 =
      some ⟨ErrorCode.Fail, "boom"⟩ :=
  error_sys_round_trip ErrorCode.Fail "boom" ⟨ErrorCode.Fail, "boom"⟩
    ⟨[⟨ErrorCode.Ok, "prior"⟩]⟩ (by rfl)

/-- C7: during entry-point resolution with dynamic loading, an engine
minor version strictly below the binding's compiled-against minor is
fatal — and fatally so before any entry point is callable: the outcome
is the same whatever the `GetApi` oracle would have returned; a strictly
greater minor resolves successfully with the warning flag set; an equal
minor resolves silently. -/
theorem version_gate (version_string : String) (expected_minor : Nat)
    (get_api : Nat → Option Nat) :
    (parseMinorVersion version_string < expected_minor →
      api_resolve version_string expected_minor get_api =
          ApiResolution.fatal (versionGateFatalMsg expected_minor version_string)
      ∧ ∀ g2 : Nat → Option Nat,
          api_resolve version_string expected_minor g2 =
            api_resolve version_string expected_minor get_api)
  ∧ (parseMinorVersion version_string > expected_minor →
      ∀ p, get_api expected_minor = some p →
        api_resolve version_string expected_minor get_api = ApiResolution.resolved p true)
  ∧ (parseMinorVersion version_string = expected_minor →
      ∀ p, get_api expected_minor = some p →
        api_resolve version_string expected_minor get_api = ApiResolution.resolved p false) := by
  refine ⟨?_, ?_, ?_⟩
  · intro hlt
    constructor
    · simp [api_resolve, hlt]
    · intro g2
      simp [api_resolve, hlt]
  · intro hgt p hp
    have hnlt : ¬ parseMinorVersion version_string < expected_minor := by omega
    simp [api_resolve, hnlt, hp, hgt]
  · intro heq p hp
    have hnlt : ¬ parseMinorVersion version_string < expected_minor := by omega
    have hngt : ¬ parseMinorVersion version_string > expected_minor := by omega
    simp [api_resolve, hnlt, hp, hngt]

/-- Witness for C7: all three comparisons against an expected minor of
18, with a `GetApi` oracle returning table pointer 7. -/
theorem version_gate_witness :
    api_resolve "1.17.0" 18 (fun _ => some 7) =
        ApiResolution.fatal (versionGateFatalMsg 18 "1.17.0")
  ∧ api_resolve "1.19.2" 18 (fun _ => some 7) = ApiResolution.resolved 7 true
  ∧ api_resolve "1.18.1" 18 (fun _ => some 7) = ApiResolution.resolved 7 false :=
  ⟨((version_gate "1.17.0" 18 (fun _ => some 7)).1 (by decide)).1,
   (version_gate "1.19.2" 18 (fun _ => some 7)).2.1 (by decide) 7 rfl,
   (version_gate "1.18.1" 18 (fun _ => some 7)).2.2 (by decide) 7 rfl⟩

/-- C8: a direct-index operation on a tensor whose `memory_info` does not
report CPU-accessible memory panics without returning data and without
making the engine's element-address call; the engine's `TensorAt` call is
made exactly when the memory is host-accessible. -/
theorem tensor_index_cpu_gate (mem : MemoryInfo) (tensor_at : List Int → Option Nat)
    (index : List Int) :
    (mem.cpu_accessible = false →
      tensor_index mem tensor_at index =
        (IndexOutcome.panicked "Cannot directly index a tensor which is not allocated on the CPU.",
         false))
  ∧ ((tensor_index mem tensor_at index).2 = true → mem.cpu_accessible = true)
  ∧ (mem.cpu_accessible = true → (tensor_index mem tensor_at index).2 = true) := by
  cases mem with
  | mk acc =>
    cases acc with
    | false =>
      refine ⟨fun _ => rfl, fun h => ?_, fun h => ?_⟩
      · exact absurd h (by simp [tensor_index])
      · exact absurd h (by decide)
    | true =>
      refine ⟨fun h => ?_, fun _ => rfl, fun _ => ?_⟩
      · exact absurd h (by decide)
      · cases ht : tensor_at index <;> simp [tensor_index, ht]

/-- Witness for C8: indexing a device-memory tensor panics with the
engine never called; indexing a CPU tensor reaches the engine. -/
theorem tensor_index_cpu_gate_witness :
    tensor_index ⟨false⟩ (fun _ => some 0) [0, 0] =
      (IndexOutcome.panicked "Cannot directly index a tensor which is not allocated on the CPU.",
       false)
  ∧ (tensor_index ⟨true⟩ (fun _ => some 0) [0, 0]).2 = true :=
  ⟨(tensor_index_cpu_gate ⟨false⟩ (fun _ => some 0) [0, 0]).1 rfl,
   (tensor_index_cpu_gate ⟨true⟩ (fun _ => some 0) [0, 0]).2.2 rfl⟩

/-- C9: with dynamic loading enabled, the library path is the environment
override when it is set and non-empty, else the platform default name; a
path the platform reports absolute is passed through unchanged; a
relative path is resolved against the executable's directory exactly when
a file exists at the joined location, else passed as-is; and a loader
failure on the resolved path is fatal. -/
theorem dylib_resolution (platform : Platform) (s path exe_dir : String)
    (is_absolute : String → Bool) (file_exists : String → Bool) (load : String → Option Nat) :
    (s.isEmpty = false → dylib_path platform (some s) = s)
  ∧ (s.isEmpty = true → dylib_path platform (some s) = platform_default_lib platform)
  ∧ (dylib_path platform none = platform_default_lib platform)
  ∧ (is_absolute path = true → resolve_lib_path path is_absolute exe_dir file_exists = path)
  ∧ (is_absolute path = false → file_exists (path_join exe_dir path) = true →
      resolve_lib_path path is_absolute exe_dir file_exists = path_join exe_dir path)
  ∧ (is_absolute path = false → file_exists (path_join exe_dir path) = false →
      resolve_lib_path path is_absolute exe_dir file_exists = path)
  ∧ (load (resolve_lib_path path is_absolute exe_dir file_exists) = none →
      lib_handle_load (resolve_lib_path path is_absolute exe_dir file_exists) load =
        Except.error ("An error occurred while attempting to load the ONNX Runtime binary at " ++
          resolve_lib_path path is_absolute exe_dir file_exists)) := by
  refine ⟨?_, ?_, rfl, ?_, ?_, ?_, ?_⟩
  · intro h
    simp [dylib_path, h]
  · intro h
    simp [dylib_path, h]
  · intro h
    simp [resolve_lib_path, h]
  · intro ha hf
    simp [resolve_lib_path, ha, hf]
  · intro ha hf
    simp [resolve_lib_path, ha, hf]
  · intro h
    simp [lib_handle_load, h]

/-- Witness for C9: the override wins when non-empty; a relative path
with no file next to the executable is passed as-is; loading failure is
the fatal error. -/
theorem dylib_resolution_witness :
    dylib_path Platform.linux (some "/opt/ort/libonnxruntime.so") = "/opt/ort/libonnxruntime.so"
  ∧ dylib_path Platform.linux (some "") = "libonnxruntime.so"
  ∧ resolve_lib_path "libonnxruntime.so" (fun _ => false) "/usr/bin"
      (fun _ => false) = "libonnxruntime.so"
  ∧ lib_handle_load "libonnxruntime.so" (fun _ => none) =
      Except.error
        "An error occurred while attempting to load the ONNX Runtime binary at libonnxruntime.so" :=
  ⟨(dylib_resolution Platform.linux "/opt/ort/libonnxruntime.so" "" "" (fun _ => false)
      (fun _ => false) (fun _ => none)).1 (by decide),
   (dylib_resolution Platform.linux "" "" "" (fun _ => false) (fun _ => false)
      (fun _ => none)).2.1 (by decide),
   (dylib_resolution Platform.linux "" "libonnxruntime.so" "/usr/bin" (fun _ => false)
      (fun _ => false) (fun _ => none)).2.2.2.2.2.1 rfl rfl,
   (dylib_resolution Platform.linux "" "libonnxruntime.so" "/usr/bin" (fun _ => false)
      (fun _ => false) (fun _ => none)).2.2.2.2.2.2 rfl⟩

/-- C10: every tensor constructor in the core (`from_array`,
`from_array_view`, `from_array_view_mut`, `from_raw`, `new`,
`from_string_array`) stores a present `memory_info` in the Value's inner
state, so the unchecked-unwrap accessor `Value::memory_info` is
well-defined on every tensor Value they return. -/
theorem constructors_store_memory_info (ty : TensorElementType) (oi : OwnedInput)
    (bi : BorrowedInput) (info queried : MemoryInfo) (shape dims : List Int)
    (sdata : List String) (value_ptr : Nat) :
    (∀ inner parts, Tensor.from_array ty oi value_ptr = Except.ok (inner, parts) →
      (Value.memory_info inner).isSome = true)
  ∧ (∀ inner parts, TensorRef.from_array_view ty bi value_ptr = Except.ok (inner, parts) →
      (Value.memory_info inner).isSome = true)
  ∧ (∀ inner parts, TensorRefMut.from_array_view_mut ty bi value_ptr = Except.ok (inner, parts) →
      (Value.memory_info inner).isSome = true)
  ∧ (Value.memory_info (TensorRefMut.from_raw ty info shape value_ptr)).isSome = true
  ∧ (∀ inner, Tensor.new ty dims value_ptr queried = Except.ok inner →
      (Value.memory_info inner).isSome = true)
  ∧ (∀ inner t, Tensor.from_string_array dims sdata value_ptr queried = Except.ok (inner, t) →
      (Value.memory_info inner).isSome = true) := by
  refine ⟨?_, ?_, ?_, rfl, ?_, ?_⟩
  · intro inner parts h
    cases hp : oi.into_parts with
    | ok p =>
      rw [Tensor.from_array, hp, except_bind_ok] at h
      cases h
      rfl
    | error e =>
      rw [Tensor.from_array, hp, except_bind_error] at h
      cases h
  · intro inner parts h
    cases hp : bi.ref_parts with
    | ok p =>
      rw [TensorRef.from_array_view, hp, except_bind_ok] at h
      cases h
      rfl
    | error e =>
      rw [TensorRef.from_array_view, hp, except_bind_error] at h
      cases h
  · intro inner parts h
    cases hp : bi.ref_parts with
    | ok p =>
      rw [TensorRefMut.from_array_view_mut, hp, except_bind_ok] at h
      cases h
      rfl
    | error e =>
      rw [TensorRefMut.from_array_view_mut, hp, except_bind_error] at h
      cases h
  · intro inner h
    cases hp : to_dimensions dims none with
    | ok s2 =>
      rw [Tensor.new, hp, except_bind_ok] at h
      cases h
      rfl
    | error e =>
      rw [Tensor.new, hp, except_bind_error] at h
      cases h
  · intro inner t h
    cases hp : to_dimensions dims (some sdata.length) with
    | ok s2 =>
      cases hc : nullTerminatedCopies sdata with
      | ok cs =>
        rw [Tensor.from_string_array, hp, except_bind_ok, hc, except_bind_ok] at h
        cases h
        rfl
      | error e =>
        rw [Tensor.from_string_array, hp, except_bind_ok, hc, except_bind_error] at h
        cases h
    | error e =>
      rw [Tensor.from_string_array, hp, except_bind_error] at h
      cases h

/-- Witness for C10: the `from_raw` and `from_array` constructors at
concrete inputs both carry a present `memory_info`. -/
theorem constructors_store_memory_info_witness :
    (Value.memory_info
        (TensorRefMut.from_raw TensorElementType.Float32 ⟨false⟩ [1, 3] 9)).isSome = true
  ∧ (Value.memory_info
        ⟨9, ValueType.Tensor TensorElementType.Float32 [4] [none],
         some cpu_input_memory_info, true,
         some (Guard.vec [1, 2, 3, 4])⟩).isSome = true :=
  ⟨(constructors_store_memory_info TensorElementType.Float32 (OwnedInput.vec [] [])
      (BorrowedInput.slice [] []) ⟨false⟩ ⟨true⟩ [1, 3] [] [] 9).2.2.2.1,
   (constructors_store_memory_info TensorElementType.Float32
      (OwnedInput.vec [4] [1, 2, 3, 4]) (BorrowedInput.slice [] []) ⟨false⟩ ⟨true⟩ [] []
      [] 9).1
      ⟨9, ValueType.Tensor TensorElementType.Float32 [4] [none],
       some cpu_input_memory_info, true, some (Guard.vec [1, 2, 3, 4])⟩
      { shape := [4], data := [1, 2, 3, 4], num_elements := 4,
        guard := Guard.vec [1, 2, 3, 4], copied := false } (by rfl)⟩

/-- Invariant tying the release count to the strong count: while any
wrapper is alive no release has happened; once the count reached zero the
release has happened exactly when `release_on_drop` was set. -/
def rcInvariant (s : RcState) : Prop :=
  s.releases = if s.strong = 0 then (if s.release_on_drop then 1 else 0) else 0

theorem rcStep_invariant (s s2 : RcState) (e : RcEvent) (h : rcStep s e = some s2)
    (hinv : rcInvariant s) : rcInvariant s2 ∧ s2.release_on_drop = s.release_on_drop := by
  cases e with
  | clone =>
    by_cases hz : s.strong = 0
    · simp [rcStep, hz] at h
    · simp [rcStep, hz] at h
      subst h
      unfold rcInvariant at hinv ⊢
      refine ⟨?_, rfl⟩
      rw [hinv, if_neg hz, if_neg (by omega : ¬ s.strong + 1 = 0)]
  | drop =>
    by_cases hz : s.strong = 0
    · simp [rcStep, hz] at h
    · by_cases h1 : s.strong = 1
      · simp [rcStep, hz, h1] at h
        subst h
        unfold rcInvariant at hinv ⊢
        refine ⟨?_, rfl⟩
        rw [hinv, if_neg hz]
        simp
      · simp [rcStep, hz, h1] at h
        subst h
        unfold rcInvariant at hinv ⊢
        refine ⟨?_, rfl⟩
        rw [hinv, if_neg hz, if_neg (by omega : ¬ s.strong - 1 = 0)]

theorem rcRun_invariant (events : List RcEvent) (s s2 : RcState) (h : rcRun s events = some s2)
    (hinv : rcInvariant s) : rcInvariant s2 ∧ s2.release_on_drop = s.release_on_drop := by
  induction events generalizing s with
  | nil =>
    cases h
    exact ⟨hinv, rfl⟩
  | cons e rest ih =>
    unfold rcRun at h
    cases hs : rcStep s e with
    | none =>
      rw [hs] at h
      cases h
    | some s1 =>
      rw [hs, Option.some_bind] at h
      obtain ⟨hinv1, hflag1⟩ := rcStep_invariant s s1 e hs hinv
      obtain ⟨hinv2, hflag2⟩ := ih s1 h hinv1
      exact ⟨hinv2, hflag2.trans hflag1⟩

/-- C1: for every Value constructed with `release_on_drop` set, along any
valid sequence of clone events (including the `Arc::clone` inside
`upcast_ref` / `upcast_mut`, which share the same inner state) and drop
events, in any order, the engine's release entry point is invoked at most
once at every point, and exactly once by the time the last reference is
gone. -/
theorem release_once (events : List RcEvent) (s : RcState)
    (h : rcRun (rcInit true) events = some s) :
    s.releases ≤ 1 ∧ (s.strong = 0 → s.releases = 1) := by
  have hinit : rcInvariant (rcInit true) := by
    simp [rcInvariant, rcInit]
  obtain ⟨hinv, hflag⟩ := rcRun_invariant events (rcInit true) s h hinit
  unfold rcInvariant at hinv
  rw [hflag] at hinv
  by_cases hz : s.strong = 0
  · have h2 : s.releases = 1 := by
      rw [if_pos hz] at hinv
      simpa using hinv
    exact ⟨by omega, fun _ => h2⟩
  · rw [if_neg hz] at hinv
    exact ⟨by omega, fun hc => absurd hc hz⟩

/-- Witness for C1: a Value cloned twice (e.g. once via `upcast_ref`),
with the three wrappers dropped in an interleaved order, ends with the
release entry point called exactly once. -/
theorem release_once_witness :
    (⟨0, 1, true⟩ : RcState).releases ≤ 1
  ∧ ((⟨0, 1, true⟩ : RcState).strong = 0 → (⟨0, 1, true⟩ : RcState).releases = 1) :=
  release_once [RcEvent.clone, RcEvent.drop, RcEvent.clone, RcEvent.drop, RcEvent.drop]
    ⟨0, 1, true⟩ (by rfl)

end Ort
